import Mathlib

/-!
Shallow embedding of the tripo-rust-sdk client (src/src/client.rs, src/src/types.rs,
src/src/lib.rs) and proofs about its task-lifecycle, input-resolution, upload and
download logic.

Conventions of the embedding:
* Pure Rust data types become Lean structures/inductives with the source field names.
* Network and filesystem interactions are made explicit: a function that performs
  HTTP requests takes the response it would receive as an argument, and returns an
  effect trace (the list of side-effecting operations it performs, in order).
* External library behaviour (serde JSON decoding, the url crate, mime_guess) is
  modelled by small explicit functions; JSON structural decoding of a response body
  is abstracted as a value that is either a structurally valid envelope or malformed.
* Rust u8/u64 values appearing here (progress, create_time, HTTP status) are
  modelled as Nat: none of the verified code paths perform arithmetic on them, so
  no overflow behaviour is in play.
-/

namespace Tripo

/-- Task lifecycle states, from the `TaskState` enum in src/src/types.rs.
The serde derive uses `rename_all = "lowercase"`; there is no catch-all variant. -/
inductive TaskState
  | Pending
  | Running
  | Success
  | Failure
deriving DecidableEq

/-- Wire-value decoding of `TaskState`, as generated by serde for the enum with
`rename_all = "lowercase"`: exactly the four lowercase names decode; every other
string is a deserialization error (`none`). -/
def parseTaskState (s : String) : Option TaskState :=
  if s = "pending" then some .Pending
  else if s = "running" then some .Running
  else if s = "success" then some .Success
  else if s = "failure" then some .Failure
  else none

/-- The terminal-state test used by `wait_for_task` in src/src/client.rs lines 588-596:
the match arms `TaskState::Success | TaskState::Failure` return, everything else polls on. -/
def isTerminal : TaskState → Bool
  | .Success => true
  | .Failure => true
  | _ => false

/-- A downloadable file asset (`ResultFile` in src/src/types.rs). -/
structure ResultFile where
  url : String
deriving DecidableEq

/-- The optional output files of a task (`TaskResult` in src/src/types.rs). -/
structure TaskResult where
  pbr_model : Option ResultFile
  glb_model : Option ResultFile
deriving DecidableEq

/-- A preview image reference (`TaskOutput` in src/src/types.rs). -/
structure TaskOutput where
  generated_image : Option String
deriving DecidableEq

/-- A decoded task status snapshot (`TaskStatus` in src/src/types.rs). -/
structure TaskStatus where
  task_id : String
  status : TaskState
  progress : Nat
  create_time : Nat
  result : TaskResult
  output : Option TaskOutput
deriving DecidableEq

/-- The error type of the SDK (`TripoError` in src/src/error.rs), with each wrapped
foreign error carried as its message string. -/
inductive TripoError
  | MissingApiKey
  | RequestError (msg : String)
  | ResponseParseError (msg : String)
  | ApiError (message : String)
  | UrlError (msg : String)
  | IoError (kind : String) (msg : String)
  | UploadStreamError (msg : String)
  | WebSocketError (msg : String)
  | HttpError (msg : String)
deriving DecidableEq

/-- A task-status response body as seen after the structural JSON layer: either a
structurally valid `{data: ...}` envelope whose fields decoded (except possibly the
`status` enum value, kept as the raw wire string), or malformed JSON. `raw` is the
raw body text. -/
structure WireTaskStatus where
  task_id : String
  status : String
  progress : Nat
  create_time : Nat
  result : TaskResult
  output : Option TaskOutput
deriving DecidableEq

/-- Decoding a wire snapshot into a `TaskStatus`: serde decodes the whole value or
fails; an unrecognized `status` string makes the whole snapshot fail to decode. -/
def parseTaskStatus (w : WireTaskStatus) : Option TaskStatus :=
  match parseTaskState w.status with
  | some st => some ⟨w.task_id, st, w.progress, w.create_time, w.result, w.output⟩
  | none => none

/-- A task-status HTTP response body: a structurally valid envelope (with its raw
text and decoded fields) or malformed text. -/
inductive TaskBody
  | envelope (raw : String) (w : WireTaskStatus)
  | malformed (raw : String)
deriving DecidableEq

/-- The raw body text, used by the non-2xx error branch of `get_task`. -/
def TaskBody.rawText : TaskBody → String
  | .envelope raw _ => raw
  | .malformed raw => raw

/-- `reqwest::StatusCode::is_success`: 2xx. -/
def isSuccessStatus (n : Nat) : Bool := 200 ≤ n && n ≤ 299

/-- The outcome of one HTTP fetch, as delivered by the transport to `get_task`. -/
inductive HttpOutcome
  | transportError (msg : String)
  | response (status : Nat) (body : TaskBody)
deriving DecidableEq

/-- `TripoClient::get_task` (src/src/client.rs lines 398-411), with the network
response passed in explicitly: a transport failure propagates as an error; on a 2xx
response the body is decoded as `ApiResponse<TaskStatus>` (decode failure, including
an unrecognized status value, is a parse error); on a non-2xx response the raw body
is echoed inside `ApiError`. -/
def get_task (o : HttpOutcome) : Except TripoError TaskStatus :=
  match o with
  | .transportError m => .error (.RequestError m)
  | .response st body =>
    if isSuccessStatus st then
      match body with
      | .envelope _ w =>
        match parseTaskStatus w with
        | some ts => .ok ts
        | none => .error (.ResponseParseError w.status)
      | .malformed raw => .error (.ResponseParseError raw)
    else
      .error (.ApiError body.rawText)

/-- `TripoClient::wait_for_task` (src/src/client.rs lines 575-598), driven by the
list of successive fetch outcomes the environment supplies. Returns
`some (outcome, fetches, slept)`: the loop result, the number of `get_task` fetches
performed, and the total time suspended (the code sleeps 2 seconds after each
non-terminal snapshot). Returns `none` when the supplied outcomes run out with the
loop still polling (the real loop would block waiting for the next response). -/
def wait_for_task : List HttpOutcome → Option (Except TripoError TaskStatus × Nat × Nat)
  | [] => none
  | o :: rest =>
    match get_task o with
    | .error e => some (.error e, 1, 0)
    | .ok ts =>
      if isTerminal ts.status then
        some (.ok ts, 1, 0)
      else
        (wait_for_task rest).map fun r => (r.1, r.2.1 + 1, r.2.2 + 2)

/-- A WebSocket message, from the `Message` match in
`TripoClient::connect_and_stream_tasks` (src/src/client.rs lines 514-526). A text
frame carries its body after the structural JSON layer, like an HTTP body. -/
inductive WsMessage
  | text (d : TaskBody)
  | binary
  | ping
  | pong
  | close
deriving DecidableEq

/-- One item of the underlying WebSocket stream: a delivered message or a
transport-level error. -/
inductive WsItem
  | msg (m : WsMessage)
  | err (e : String)
deriving DecidableEq

/-- The per-item closure passed to `filter_map` in `connect_and_stream_tasks`
(src/src/client.rs lines 514-526): a text frame is decoded as
`ApiResponse<TaskStatus>` and yields an `Ok` or `Err` item; a close frame yields
nothing; a transport error yields an `Err` item; binary/ping/pong yield nothing. -/
def process_ws_item : WsItem → Option (Except TripoError TaskStatus)
  | .msg (.text d) =>
    match d with
    | .envelope _ w =>
      match parseTaskStatus w with
      | some ts => some (.ok ts)
      | none => some (.error (.ResponseParseError w.status))
    | .malformed raw => some (.error (.ResponseParseError raw))
  | .msg .close => none
  | .err e => some (.error (.WebSocketError e))
  | .msg .binary => none
  | .msg .ping => none
  | .msg .pong => none

/-- The sequence of items the stream returned by `watch_task` / `watch_all_tasks`
yields, given the list of items the underlying connection delivers (the underlying
tungstenite stream delivers nothing after a close frame): the `filter_map` of
`process_ws_item`. -/
def stream_items (items : List WsItem) : List (Except TripoError TaskStatus) :=
  items.filterMap process_ws_item

/-- `str::starts_with` for a string pattern: the pattern's characters are a
prefix of the string's characters. -/
def charsLeading : List Char → List Char → Bool
  | [], _ => true
  | _ :: _, [] => false
  | p :: ps, c :: cs => p == c && charsLeading ps cs

/-- `str::starts_with` on strings. -/
def strStartsWith (s pat : String) : Bool := charsLeading pat.toList s.toList

/-- Lowercase hex digit, the character class `[0-9a-f]` of the UUID regex in
src/src/client.rs lines 29-31. -/
def isLowerHexDigit (c : Char) : Bool := c.isDigit || ('a' ≤ c && c ≤ 'f')

/-- Consume exactly `n` lowercase hex digits; `none` when the input does not start
with `n` such digits. -/
def hexRun : Nat → List Char → Option (List Char)
  | 0, cs => some cs
  | _ + 1, [] => none
  | n + 1, c :: cs => if isLowerHexDigit c then hexRun n cs else none

/-- Consume one hyphen. -/
def expectDash : List Char → Option (List Char)
  | '-' :: cs => some cs
  | _ => none

/-- The anchored UUID regex `^[0-9a-f]\x7b8\x7d-[0-9a-f]\x7b4\x7d-[0-9a-f]\x7b4\x7d-[0-9a-f]\x7b4\x7d-[0-9a-f]\x7b12\x7d$`
(`UUID_RE` in src/src/client.rs lines 29-31): 8-4-4-4-12 lowercase hex groups
covering the whole string. -/
def uuid_re_match (s : String) : Bool :=
  ((((((((hexRun 8 s.toList).bind expectDash).bind (hexRun 4)).bind expectDash).bind
      (hexRun 4)).bind expectDash).bind (hexRun 4)).bind expectDash).bind (hexRun 12)
    == some []

/-- Split a character list on a separator character; like `str::split`, a list of
groups, empty groups included. -/
def splitOnChar (sep : Char) : List Char → List (List Char)
  | [] => [[]]
  | c :: rest =>
    if c = sep then
      [] :: splitOnChar sep rest
    else
      match splitOnChar sep rest with
      | [] => [[c]]
      | g :: gs => (c :: g) :: gs

/-- The separator-delimited pieces of a string, as strings. -/
def splitPieces (sep : Char) (s : String) : List String :=
  (splitOnChar sep s.toList).map String.mk

/-- `std::path::Path::file_name`: the last path component, ignoring trailing
separators and `.` components; `none` when the path ends in `..` or has no
component. -/
def pathFileName (s : String) : Option String :=
  let comps := (splitPieces '/' s).filter fun c => c ≠ "" && c ≠ "."
  match comps.getLast? with
  | none => none
  | some c => if c = ".." then none else some c

/-- Extension of a file name, `std::path::Path::extension` semantics: the part
after the last dot, except that a name with no dot, or only a leading dot, has no
extension. -/
def extensionOfName (name : String) : Option String :=
  match splitPieces '.' name with
  | [] => none
  | [_] => none
  | first :: rest => if first = "" && rest.length = 1 then none else rest.getLast?

/-- `std::path::Path::extension` of a path string. -/
def pathExtension (s : String) : Option String :=
  (pathFileName s).bind extensionOfName

/-- Modelled from the external mime_guess crate used by `upload_file`
(src/src/client.rs lines 275-277): MIME type looked up from the path extension,
with `application/octet-stream` as the default for an unknown or absent
extension. The table lists the common image/model entries of the crate's
database; every extension outside it falls to the default, as in the crate. -/
def mimeGuess (ext : Option String) : String :=
  match ext with
  | some "png" => "image/png"
  | some "jpg" => "image/jpeg"
  | some "jpeg" => "image/jpeg"
  | some "gif" => "image/gif"
  | some "webp" => "image/webp"
  | some "bmp" => "image/bmp"
  | _ => "application/octet-stream"

/-- The multipart part metadata produced by `TripoClient::upload_file`
(src/src/client.rs lines 256-283): the real file name taken from the path (an
error when the path has none) and the MIME type guessed from the path with
octet-stream default. Returns `(file_name, mime_type)`. -/
def upload_file_part_meta (image_path : String) : Except TripoError (String × String) :=
  match pathFileName image_path with
  | none => .error (.IoError "InvalidInput" "Could not determine file name")
  | some n => .ok (n, mimeGuess (pathExtension image_path))

/-- The multipart part metadata produced by `TripoClient::image_to_3d`
(src/src/lib.rs lines 250-253): a hardcoded file name and MIME type, independent
of the path (the source marks this with a TODO). -/
def image_to_3d_part_meta (_image_path : String) : String × String :=
  ("image.png", "image/png")

/-- An object stored in S3 (`S3Object` in src/src/types.rs). -/
structure S3Object where
  bucket : String
  key : String
deriving DecidableEq

/-- The file descriptor sent in task requests (`FileContent` in src/src/types.rs).
Serde serializes the fields in declaration order, renames `type_` to `type`, and
skips each of `object`, `url`, `file_token` when it is `none`. -/
structure FileContent where
  type_ : String
  object : Option S3Object
  url : Option String
  file_token : Option String
deriving DecidableEq

/-- The list of keys, in order, that serde emits when serializing a `FileContent`:
`type` always, and each optional field only when present
(`skip_serializing_if = "Option::is_none"` in src/src/types.rs lines 26-40). -/
def fileContentKeys (fc : FileContent) : List String :=
  ["type"] ++ (if fc.object.isSome then ["object"] else [])
    ++ (if fc.url.isSome then ["url"] else [])
    ++ (if fc.file_token.isSome then ["file_token"] else [])

/-- Exactly one of the three variant fields of a `FileContent` is populated. -/
def exactlyOneVariant (fc : FileContent) : Bool :=
  fc.object.isSome.toNat + fc.url.isSome.toNat + fc.file_token.isSome.toNat == 1

/-- Observable side effects of `_create_file_content_from_str`: a filesystem
existence probe and a delegation to the uploader. -/
inductive ResolveEffect
  | fsProbe (path : String)
  | uploadCall (path : String)
deriving DecidableEq

/-- `TripoClient::_create_file_content_from_str` (src/src/client.rs lines 339-381),
with the filesystem (`existingPaths`: the set of paths for which `Path::exists` is
true) and the uploader outcome (`uploadResult`, the result `upload_file` would
return for a path) passed in explicitly. Returns the result and the ordered trace
of probe/upload effects performed. Branch order as in the source: URL prefix
first, then the UUID regex, then the filesystem. -/
def _create_file_content_from_str (existingPaths : List String)
    (uploadResult : String → Except TripoError String)
    (image_str : String) : Except TripoError FileContent × List ResolveEffect :=
  if strStartsWith image_str "http://" || strStartsWith image_str "https://" then
    (.ok ⟨"jpeg", none, some image_str, none⟩, [])
  else if uuid_re_match image_str then
    (.ok ⟨"jpeg", none, none, some image_str⟩, [])
  else if existingPaths.contains image_str then
    match uploadResult image_str with
    | .error e => (.error e, [.fsProbe image_str, .uploadCall image_str])
    | .ok tok =>
      (.ok ⟨(pathExtension image_str).getD "jpeg", none, none, some tok⟩,
        [.fsProbe image_str, .uploadCall image_str])
  else
    (.error (.IoError "NotFound" ("Image file not found: " ++ image_str)),
      [.fsProbe image_str])

/-- The STS-credential issuance response (`StsTokenData` in src/src/types.rs). -/
structure StsTokenData where
  sts_ak : String
  sts_sk : String
  session_token : String
  resource_bucket : String
  resource_uri : String
deriving DecidableEq

/-- Observable side effects of `upload_file_s3`: the per-call credential request
and the object-storage put. -/
inductive UploadEffect
  | stsTokenRequest
  | s3Put (bucket : String) (key : String)
deriving DecidableEq

/-- `TripoClient::upload_file_s3` (src/src/client.rs lines 166-237) on its success
path, with the credential-issuance response passed in explicitly. Every call first
requests fresh STS credentials (the trace starts with `stsTokenRequest`; the
client value stores no credentials), puts the file at the issued bucket/key, and
returns a descriptor carrying only that bucket/key plus the extension tag
(`jpeg` default). -/
def upload_file_s3 (sts : StsTokenData) (image_path : String) :
    FileContent × List UploadEffect :=
  (⟨(pathExtension image_path).getD "jpeg",
      some ⟨sts.resource_bucket, sts.resource_uri⟩, none, none⟩,
    [.stsTokenRequest, .s3Put sts.resource_bucket sts.resource_uri])

/-- Filesystem mutations performed by `download_model`, in order. -/
inductive FsEffect
  | createDirAll (dir : String)
  | createFile (path : String)
  | writeAll (path : String) (content : String)
deriving DecidableEq

/-- Split a URL at the first occurrence of `://` into scheme characters and the
remainder; `none` when there is no such occurrence. -/
def splitSchemeAux (acc : List Char) : List Char → Option (List Char × List Char)
  | ':' :: '/' :: '/' :: rest => some (acc.reverse, rest)
  | c :: rest => splitSchemeAux (c :: acc) rest
  | [] => none

/-- Modelled from the url crate as used by `download_model`
(src/src/client.rs lines 623-627): `none` when `Url::parse` fails (no
`scheme://` shape); otherwise `some seg` where `seg` is
`path_segments().and_then(last)` — the substring after the last slash of the
path, or the empty segment when the URL has no path. -/
def urlPathSegmentsLast (u : String) : Option (Option String) :=
  match splitSchemeAux [] u.toList with
  | none => none
  | some (scheme, rest) =>
    if scheme = [] || rest = [] then none
    else
      match splitOnChar '/' rest with
      | [] => none
      | [_host] => some (some "")
      | _host :: segs => some ((segs.map String.mk).getLast?)

/-- `TripoClient::download_model` (src/src/client.rs lines 618-645), with the HTTP
fetch outcome for the file URL passed in explicitly (`resp`: transport error, or
status code and body bytes). Returns the result and the ordered filesystem-effect
trace: the URL is parsed and the destination file name derived first, then the
fetch is performed, then — only when the status is 2xx — the destination directory
is created, the file created and the content written. -/
def download_model (resp : Except TripoError (Nat × String)) (model : ResultFile)
    (dest_dir : String) : Except TripoError String × List FsEffect :=
  match urlPathSegmentsLast model.url with
  | none => (.error (.UrlError model.url), [])
  | some segLast =>
    let file_name := segLast.getD "downloaded_model.bin"
    let file_path := dest_dir ++ "/" ++ file_name
    match resp with
    | .error e => (.error e, [])
    | .ok (st, body) =>
      if isSuccessStatus st then
        (.ok file_path,
          [.createDirAll dest_dir, .createFile file_path, .writeAll file_path body])
      else
        (.error (.ApiError ("Failed to download file: status " ++ toString st)), [])

/-- `TripoClient::download_all_models` (src/src/client.rs lines 664-682), with the
per-file download outcome (`dl`: what `download_model` returns for a given result
file) passed in explicitly. Returns the result and the list of downloads completed
in this call, in order: the pbr model is handled first, then the glb model; the
first failing download aborts with that error, and the completed-download list
records what was already written and stays in place (there is no removal effect). -/
def download_all_models (dl : ResultFile → Except TripoError String) (ts : TaskStatus) :
    Except TripoError (List String) × List (ResultFile × String) :=
  match ts.result.pbr_model with
  | none =>
    match ts.result.glb_model with
    | none => (.ok [], [])
    | some g =>
      match dl g with
      | .error e => (.error e, [])
      | .ok q => (.ok [q], [(g, q)])
  | some f =>
    match dl f with
    | .error e => (.error e, [])
    | .ok p =>
      match ts.result.glb_model with
      | none => (.ok [p], [(f, p)])
      | some g =>
        match dl g with
        | .error e => (.error e, [(f, p)])
        | .ok q => (.ok [p, q], [(f, p), (g, q)])

/-- Concrete non-terminal wire snapshot used in witnesses: running at 50%. -/
def runningWire : WireTaskStatus := ⟨"tid", "running", 50, 0, ⟨none, none⟩, none⟩

/-- Concrete terminal wire snapshot used in witnesses: success at 100% with one file. -/
def successWire : WireTaskStatus :=
  ⟨"tid", "success", 100, 0, ⟨some ⟨"https://example.com/model.glb"⟩, none⟩, none⟩

/-- The decoded form of `successWire`. -/
def successSnap : TaskStatus :=
  ⟨"tid", .Success, 100, 0, ⟨some ⟨"https://example.com/model.glb"⟩, none⟩, none⟩

/-- The decoded form of `runningWire`. -/
def runningSnap : TaskStatus := ⟨"tid", .Running, 50, 0, ⟨none, none⟩, none⟩

/-- Helper: the cons-step unfolding of the polling loop. -/
theorem wait_for_task_cons (o : HttpOutcome) (rest : List HttpOutcome) :
    wait_for_task (o :: rest) =
      match get_task o with
      | .error e => some (.error e, 1, 0)
      | .ok ts =>
        if isTerminal ts.status then
          some (.ok ts, 1, 0)
        else
          (wait_for_task rest).map fun r => (r.1, r.2.1 + 1, r.2.2 + 2) := rfl

/-- Helper: a wire status outside the four recognized lowercase names decodes to
nothing. -/
theorem parseTaskState_eq_none (s : String)
    (h1 : s ≠ "pending") (h2 : s ≠ "running") (h3 : s ≠ "success") (h4 : s ≠ "failure") :
    parseTaskState s = none := by
  simp [parseTaskState, h1, h2, h3, h4]

/-- C1: when the successive fetches deliver non-terminal snapshots followed by a
terminal one, `wait_for_task` returns that first terminal snapshot, performs one
fetch per preceding non-terminal snapshot plus one for the terminal snapshot, and
suspends 2 time units after each non-terminal snapshot (and not after the terminal
one). -/
theorem wait_for_task_first_terminal
    (pre : List HttpOutcome) (o : HttpOutcome) (rest : List HttpOutcome) (ts : TaskStatus)
    (hpre : ∀ x ∈ pre, ∃ u, get_task x = .ok u ∧ isTerminal u.status = false)
    (ho : get_task o = .ok ts) (hterm : isTerminal ts.status = true) :
    wait_for_task (pre ++ o :: rest) = some (.ok ts, pre.length + 1, 2 * pre.length) := by
  induction pre with
  | nil => simp [wait_for_task, ho, hterm]
  | cons x xs ih =>
    obtain ⟨u, hu, hnt⟩ := hpre x (List.mem_cons_self x xs)
    have key := ih fun y hy => hpre y (List.mem_cons_of_mem x hy)
    rw [List.cons_append, wait_for_task_cons, hu]
    simp only [hnt, Bool.false_eq_true, if_false, key, Option.map_some, List.length_cons]
    simp [Nat.mul_succ]

/-- C1 witness: for the fetch sequence [running(50), running(50), success(100)],
the loop returns the success snapshot after exactly 3 fetches, having slept 2 time
units after each of the 2 non-terminal snapshots. -/
theorem wait_for_task_first_terminal_witness :
    wait_for_task [.response 200 (.envelope "" runningWire),
        .response 200 (.envelope "" runningWire),
        .response 200 (.envelope "" successWire)]
      = some (.ok successSnap, 3, 4) := by
  have h := wait_for_task_first_terminal
    [.response 200 (.envelope "" runningWire), .response 200 (.envelope "" runningWire)]
    (.response 200 (.envelope "" successWire)) [] successSnap
    (fun x hx => by
      have hx2 : x = .response 200 (.envelope "" runningWire) := by
        simpa using hx
      exact ⟨runningSnap, by rw [hx2]; rfl, by rfl⟩)
    (by rfl) (by rfl)
  simpa using h

/-- C2 counterexample: for the unrecognized wire status value "cancelled", the
snapshot does not decode to any state at all (there is no unknown/non-terminal
bucket), and the pull loop does not treat it as non-terminal: instead of fetching
again, it aborts after 1 fetch with a parse error, even though a success response
was next. -/
theorem unknown_state_not_normalized_cex :
    parseTaskState "cancelled" = none ∧
    parseTaskStatus ⟨"tid", "cancelled", 50, 0, ⟨none, none⟩, none⟩ = none ∧
    wait_for_task [.response 200 (.envelope "" ⟨"tid", "cancelled", 50, 0, ⟨none, none⟩, none⟩),
        .response 200 (.envelope "" successWire)]
      = some (.error (.ResponseParseError "cancelled"), 1, 0) ∧
    process_ws_item (.msg (.text (.envelope "" ⟨"tid", "cancelled", 50, 0, ⟨none, none⟩, none⟩)))
      = some (.error (.ResponseParseError "cancelled")) :=
  ⟨rfl, rfl, rfl, rfl⟩

/-- C2 as amended: every wire status value outside {pending, running, success,
failure} makes the snapshot fail to decode — it is never mapped to Success or any
other state — and both modes surface this as an error rather than a snapshot: the
pull loop aborts immediately with a parse error and the push sequence yields an
error item for the frame. -/
theorem unknown_state_is_parse_error (s : String)
    (h1 : s ≠ "pending") (h2 : s ≠ "running") (h3 : s ≠ "success") (h4 : s ≠ "failure")
    (w : WireTaskStatus) (hw : w.status = s) (raw : String) (rest : List HttpOutcome) :
    parseTaskStatus w = none ∧
    get_task (.response 200 (.envelope raw w)) = .error (.ResponseParseError s) ∧
    wait_for_task (.response 200 (.envelope raw w) :: rest)
      = some (.error (.ResponseParseError s), 1, 0) ∧
    process_ws_item (.msg (.text (.envelope raw w)))
      = some (.error (.ResponseParseError s)) := by
  have hp : parseTaskState w.status = none := by
    rw [hw]; exact parseTaskState_eq_none s h1 h2 h3 h4
  have hps : parseTaskStatus w = none := by simp [parseTaskStatus, hp]
  have hg : get_task (.response 200 (.envelope raw w)) = .error (.ResponseParseError s) := by
    simp [get_task, isSuccessStatus, hps, hw]
  refine ⟨hps, hg, ?_, ?_⟩
  · simp [wait_for_task, hg]
  · simp [process_ws_item, hps, hw]

/-- C2 amended witness: instantiated at the unrecognized wire value "queued". -/
theorem unknown_state_is_parse_error_witness :
    parseTaskStatus ⟨"tid", "queued", 1, 0, ⟨none, none⟩, none⟩ = none ∧
    get_task (.response 200 (.envelope "{}" ⟨"tid", "queued", 1, 0, ⟨none, none⟩, none⟩))
      = .error (.ResponseParseError "queued") ∧
    wait_for_task [.response 200 (.envelope "{}" ⟨"tid", "queued", 1, 0, ⟨none, none⟩, none⟩)]
      = some (.error (.ResponseParseError "queued"), 1, 0) ∧
    process_ws_item (.msg (.text (.envelope "{}" ⟨"tid", "queued", 1, 0, ⟨none, none⟩, none⟩)))
      = some (.error (.ResponseParseError "queued")) := by
  have h := unknown_state_is_parse_error "queued" (by decide) (by decide) (by decide)
    (by decide) ⟨"tid", "queued", 1, 0, ⟨none, none⟩, none⟩ rfl "{}" []
  exact h

/-- C3: in the push-mode sequence, a text frame that fails to decode yields
exactly one error item and the sequence continues (a following well-formed frame
is still delivered as an Ok item); a close frame yields no item at all — delivery
ends there with no error item, since the underlying connection delivers nothing
after close; binary, ping and pong frames yield no items. -/
theorem watch_stream_frame_semantics (w : WireTaskStatus) (ts : TaskStatus)
    (hw : parseTaskStatus w = some ts) (raw braw : String) :
    (∀ rest, stream_items (.msg (.text (.malformed braw)) :: rest)
      = .error (.ResponseParseError braw) :: stream_items rest) ∧
    stream_items [.msg (.text (.malformed braw)), .msg (.text (.envelope raw w))]
      = [.error (.ResponseParseError braw), .ok ts] ∧
    (∀ pre, stream_items (pre ++ [.msg .close]) = stream_items pre) ∧
    (∀ rest, stream_items (.msg .binary :: rest) = stream_items rest) ∧
    (∀ rest, stream_items (.msg .ping :: rest) = stream_items rest) ∧
    (∀ rest, stream_items (.msg .pong :: rest) = stream_items rest) := by
  refine ⟨?_, ?_, ?_, ?_, ?_, ?_⟩
  · intro rest; simp [stream_items, process_ws_item]
  · simp [stream_items, process_ws_item, hw]
  · intro pre; simp [stream_items, List.filterMap_append, process_ws_item]
  · intro rest; simp [stream_items, process_ws_item]
  · intro rest; simp [stream_items, process_ws_item]
  · intro rest; simp [stream_items, process_ws_item]

/-- C3 witness: instantiated with a malformed frame followed by the concrete
success envelope. -/
theorem watch_stream_frame_semantics_witness :
    stream_items [.msg (.text (.malformed "oops")), .msg (.text (.envelope "" successWire))]
      = [.error (.ResponseParseError "oops"), .ok successSnap] ∧
    stream_items [.msg (.text (.malformed "oops")), .msg .binary, .msg .ping, .msg .pong,
        .msg .close]
      = [.error (.ResponseParseError "oops")] := by
  have h := watch_stream_frame_semantics successWire successSnap (by rfl) "" "oops"
  exact ⟨h.2.1, by
    have h4 := h.2.2.1 [.msg (.text (.malformed "oops")), .msg .binary, .msg .ping, .msg .pong]
    rw [show ([.msg (.text (.malformed "oops")), .msg .binary, .msg .ping, .msg .pong,
        .msg .close] : List WsItem)
      = [.msg (.text (.malformed "oops")), .msg .binary, .msg .ping, .msg .pong]
        ++ [.msg .close] from rfl, h4]
    rfl⟩

/-- C4: the input resolver classifies in the fixed order URL prefix, then UUID
shape, then filesystem: a URL-prefixed string becomes a remote-URL descriptor with
no effect at all; otherwise a UUID-shaped string becomes a file-token descriptor
with no filesystem probe and no upload, whatever the filesystem contains;
otherwise the string is probed as a path — a missing path fails with NotFound, an
existing one is delegated to the uploader and its token is returned with the
extension tag. -/
theorem input_resolver_classification (existing : List String)
    (up : String → Except TripoError String) (s tok : String) (e : TripoError) :
    ((strStartsWith s "http://" || strStartsWith s "https://") = true →
      _create_file_content_from_str existing up s = (.ok ⟨"jpeg", none, some s, none⟩, [])) ∧
    ((strStartsWith s "http://" || strStartsWith s "https://") = false → uuid_re_match s = true →
      _create_file_content_from_str existing up s = (.ok ⟨"jpeg", none, none, some s⟩, [])) ∧
    ((strStartsWith s "http://" || strStartsWith s "https://") = false → uuid_re_match s = false →
      existing.contains s = false →
      _create_file_content_from_str existing up s
        = (.error (.IoError "NotFound" ("Image file not found: " ++ s)), [.fsProbe s])) ∧
    ((strStartsWith s "http://" || strStartsWith s "https://") = false → uuid_re_match s = false →
      existing.contains s = true → up s = .ok tok →
      _create_file_content_from_str existing up s
        = (.ok ⟨(pathExtension s).getD "jpeg", none, none, some tok⟩,
            [.fsProbe s, .uploadCall s])) ∧
    ((strStartsWith s "http://" || strStartsWith s "https://") = false → uuid_re_match s = false →
      existing.contains s = true → up s = .error e →
      _create_file_content_from_str existing up s = (.error e, [.fsProbe s, .uploadCall s])) := by
  refine ⟨?_, ?_, ?_, ?_, ?_⟩
  · intro h1; simp [_create_file_content_from_str, h1]
  · intro h1 h2; simp [_create_file_content_from_str, h1, h2]
  · intro h1 h2 h3
    have h3m : s ∉ existing := by simpa using h3
    simp [_create_file_content_from_str, h1, h2, h3m]
  · intro h1 h2 h3 h4
    have h3m : s ∈ existing := by simpa using h3
    simp [_create_file_content_from_str, h1, h2, h3m, h4]
  · intro h1 h2 h3 h4
    have h3m : s ∈ existing := by simpa using h3
    simp [_create_file_content_from_str, h1, h2, h3m, h4]

/-- C4 witness: a UUID-shaped string is classified as a token with no filesystem
probe even when a file of that exact name exists; a URL string becomes a URL
descriptor; a missing path fails with NotFound after one probe; an existing path
is uploaded and tagged with its extension. -/
theorem input_resolver_classification_witness :
    _create_file_content_from_str ["550e8400-e29b-41d4-a716-446655440000"]
        (fun _ => .error (.ApiError "no upload")) "550e8400-e29b-41d4-a716-446655440000"
      = (.ok ⟨"jpeg", none, none, some "550e8400-e29b-41d4-a716-446655440000"⟩, []) ∧
    _create_file_content_from_str [] (fun _ => .error (.ApiError "no upload"))
        "https://example.com/a.png"
      = (.ok ⟨"jpeg", none, some "https://example.com/a.png", none⟩, []) ∧
    _create_file_content_from_str [] (fun _ => .error (.ApiError "no upload")) "missing.png"
      = (.error (.IoError "NotFound" "Image file not found: missing.png"),
          [.fsProbe "missing.png"]) ∧
    _create_file_content_from_str ["cat.png"] (fun _ => .ok "tok-1") "cat.png"
      = (.ok ⟨"png", none, none, some "tok-1"⟩,
          [.fsProbe "cat.png", .uploadCall "cat.png"]) := by
  refine ⟨?_, ?_, ?_, ?_⟩
  · exact (input_resolver_classification ["550e8400-e29b-41d4-a716-446655440000"]
      (fun _ => .error (.ApiError "no upload")) "550e8400-e29b-41d4-a716-446655440000"
      "t" (.ApiError "x")).2.1 (by rfl) (by rfl)
  · exact (input_resolver_classification [] (fun _ => .error (.ApiError "no upload"))
      "https://example.com/a.png" "t" (.ApiError "x")).1 (by rfl)
  · exact (input_resolver_classification [] (fun _ => .error (.ApiError "no upload"))
      "missing.png" "t" (.ApiError "x")).2.2.1 (by rfl) (by rfl) (by rfl)
  · exact (input_resolver_classification ["cat.png"] (fun _ => .ok "tok-1")
      "cat.png" "tok-1" (.ApiError "x")).2.2.2.1 (by rfl) (by rfl) (by rfl) rfl

/-- C5: any fetch failure (transport or parse) makes `wait_for_task` abort
immediately with that error: the failing fetch is the last one performed
(exactly one fetch per preceding non-terminal snapshot plus the failing one),
regardless of what responses would have followed. -/
theorem wait_for_task_aborts_on_error
    (pre : List HttpOutcome) (o : HttpOutcome) (rest : List HttpOutcome) (e : TripoError)
    (hpre : ∀ x ∈ pre, ∃ u, get_task x = .ok u ∧ isTerminal u.status = false)
    (ho : get_task o = .error e) :
    wait_for_task (pre ++ o :: rest) = some (.error e, pre.length + 1, 2 * pre.length) := by
  induction pre with
  | nil => simp [wait_for_task, ho]
  | cons x xs ih =>
    obtain ⟨u, hu, hnt⟩ := hpre x (List.mem_cons_self x xs)
    have key := ih fun y hy => hpre y (List.mem_cons_of_mem x hy)
    rw [List.cons_append, wait_for_task_cons, hu]
    simp only [hnt, Bool.false_eq_true, if_false, key, Option.map_some, List.length_cons]
    simp [Nat.mul_succ]

/-- C5 witness: after one running snapshot, a transport failure aborts the loop at
the second fetch with that error, even though a success response was queued next. -/
theorem wait_for_task_aborts_on_error_witness :
    wait_for_task [.response 200 (.envelope "" runningWire),
        .transportError "connection reset",
        .response 200 (.envelope "" successWire)]
      = some (.error (.RequestError "connection reset"), 2, 2) := by
  have h := wait_for_task_aborts_on_error [.response 200 (.envelope "" runningWire)]
    (.transportError "connection reset") [.response 200 (.envelope "" successWire)]
    (.RequestError "connection reset")
    (fun x hx => by
      have hx2 : x = .response 200 (.envelope "" runningWire) := by simpa using hx
      exact ⟨runningSnap, by rw [hx2]; rfl, by rfl⟩)
    (by rfl)
  simpa using h

/-- C6: `download_all_models` handles the pbr model first and the glb model
second; the first failing download aborts with that error (when pbr fails, no
download completes and glb is never consulted — the result is the same for every
downloader agreeing on pbr; when glb fails, the pbr file already downloaded stays
recorded, with no removal); a snapshot with no result files yields the empty
list, not an error. -/
theorem download_all_models_order_abort_empty
    (dl : ResultFile → Except TripoError String) (ts : TaskStatus)
    (f g : ResultFile) (p q : String) (e : TripoError) :
    (ts.result = ⟨none, none⟩ → download_all_models dl ts = (.ok [], [])) ∧
    (ts.result = ⟨some f, some g⟩ → dl f = .ok p → dl g = .ok q →
      download_all_models dl ts = (.ok [p, q], [(f, p), (g, q)])) ∧
    (ts.result = ⟨some f, some g⟩ → dl f = .error e →
      download_all_models dl ts = (.error e, [])) ∧
    (ts.result = ⟨some f, some g⟩ → dl f = .ok p → dl g = .error e →
      download_all_models dl ts = (.error e, [(f, p)])) := by
  refine ⟨?_, ?_, ?_, ?_⟩
  · intro hres; simp [download_all_models, hres]
  · intro hres h1 h2; simp [download_all_models, hres, h1, h2]
  · intro hres h1; simp [download_all_models, hres, h1]
  · intro hres h1 h2; simp [download_all_models, hres, h1, h2]

/-- C6 witness: with both files present, a glb failure aborts after the pbr file
was downloaded and keeps it; an empty snapshot yields the empty list. -/
theorem download_all_models_order_abort_empty_witness :
    download_all_models
        (fun r => if r.url = "https://e.com/pbr.glb" then .ok "/d/pbr.glb"
          else .error (.ApiError "Failed to download file: status 500"))
        ⟨"tid", .Success, 100, 0, ⟨some ⟨"https://e.com/pbr.glb"⟩, some ⟨"https://e.com/glb.glb"⟩⟩, none⟩
      = (.error (.ApiError "Failed to download file: status 500"),
          [(⟨"https://e.com/pbr.glb"⟩, "/d/pbr.glb")]) ∧
    download_all_models (fun _ => .error (.ApiError "unused"))
        ⟨"tid", .Success, 100, 0, ⟨none, none⟩, none⟩
      = (.ok [], []) := by
  constructor
  · exact (download_all_models_order_abort_empty
      (fun r => if r.url = "https://e.com/pbr.glb" then .ok "/d/pbr.glb"
        else .error (.ApiError "Failed to download file: status 500"))
      ⟨"tid", .Success, 100, 0,
        ⟨some ⟨"https://e.com/pbr.glb"⟩, some ⟨"https://e.com/glb.glb"⟩⟩, none⟩
      ⟨"https://e.com/pbr.glb"⟩ ⟨"https://e.com/glb.glb"⟩ "/d/pbr.glb" "unused-q"
      (.ApiError "Failed to download file: status 500")).2.2.2
      rfl (by rfl) (by rfl)
  · exact (download_all_models_order_abort_empty (fun _ => .error (.ApiError "unused"))
      ⟨"tid", .Success, 100, 0, ⟨none, none⟩, none⟩
      ⟨""⟩ ⟨""⟩ "" "" (.ApiError "x")).1 rfl

/-- C7: every descriptor the code constructs has exactly one variant populated:
each successful output of the input resolver, and the output of the delegated
S3 upload; and serialization omits absent variant keys entirely — a remote-URL
descriptor serializes with only the `type` and `url` keys. -/
theorem descriptor_exactly_one_variant (existing : List String)
    (up : String → Except TripoError String) (s path : String) (sts : StsTokenData)
    (fc : FileContent) (effs : List ResolveEffect)
    (hres : _create_file_content_from_str existing up s = (.ok fc, effs)) :
    exactlyOneVariant fc = true ∧
    exactlyOneVariant (upload_file_s3 sts path).1 = true ∧
    fileContentKeys ⟨"jpeg", none, some s, none⟩ = ["type", "url"] := by
  refine ⟨?_, by simp [upload_file_s3, exactlyOneVariant], by simp [fileContentKeys]⟩
  unfold _create_file_content_from_str at hres
  split at hres
  · obtain ⟨h, -⟩ := Prod.mk.injEq .. |>.mp hres
    obtain rfl := (Except.ok.injEq .. |>.mp h).symm
    rfl
  · split at hres
    · obtain ⟨h, -⟩ := Prod.mk.injEq .. |>.mp hres
      obtain rfl := (Except.ok.injEq .. |>.mp h).symm
      rfl
    · split at hres
      · split at hres
        · exact absurd hres (by simp)
        · obtain ⟨h, -⟩ := Prod.mk.injEq .. |>.mp hres
          obtain rfl := (Except.ok.injEq .. |>.mp h).symm
          rfl
      · exact absurd hres (by simp)

/-- C7 witness: instantiated at the remote-URL branch of the resolver. -/
theorem descriptor_exactly_one_variant_witness :
    exactlyOneVariant ⟨"jpeg", none, some "https://example.com/a.png", none⟩ = true ∧
    exactlyOneVariant (upload_file_s3 ⟨"AK", "SK", "SESS", "bkt", "k/v.jpeg"⟩ "a.jpeg").1 = true ∧
    fileContentKeys ⟨"jpeg", none, some "https://example.com/a.png", none⟩ = ["type", "url"] := by
  exact descriptor_exactly_one_variant [] (fun _ => .error (.ApiError "x"))
    "https://example.com/a.png" "a.jpeg" ⟨"AK", "SK", "SESS", "bkt", "k/v.jpeg"⟩
    ⟨"jpeg", none, some "https://example.com/a.png", none⟩ [] (by rfl)

/-- C8: the delegated S3 upload returns a descriptor whose object variant carries
exactly the bucket and key of the credential-issuance response, with no url and no
file token; the descriptor does not depend on the credential material (two
responses agreeing on bucket and key yield identical results, whatever their
access key, secret key and session token); and each call performs its own
credential request before the put. -/
theorem upload_file_s3_descriptor (sts sts2 : StsTokenData) (path : String)
    (hb : sts2.resource_bucket = sts.resource_bucket)
    (hu : sts2.resource_uri = sts.resource_uri) :
    (upload_file_s3 sts path).1
      = ⟨(pathExtension path).getD "jpeg",
          some ⟨sts.resource_bucket, sts.resource_uri⟩, none, none⟩ ∧
    upload_file_s3 sts2 path = upload_file_s3 sts path ∧
    (upload_file_s3 sts path).2
      = [.stsTokenRequest, .s3Put sts.resource_bucket sts.resource_uri] := by
  refine ⟨rfl, ?_, rfl⟩
  simp [upload_file_s3, hb, hu]

/-- C8 witness: two credential responses sharing only bucket and key produce the
same descriptor, which carries the bucket/key and nothing of the credentials. -/
theorem upload_file_s3_descriptor_witness :
    (upload_file_s3 ⟨"AK1", "SK1", "SESS1", "bkt", "k/v.png"⟩ "img.png").1
      = ⟨"png", some ⟨"bkt", "k/v.png"⟩, none, none⟩ ∧
    upload_file_s3 ⟨"AK2", "SK2", "SESS2", "bkt", "k/v.png"⟩ "img.png"
      = upload_file_s3 ⟨"AK1", "SK1", "SESS1", "bkt", "k/v.png"⟩ "img.png" ∧
    (upload_file_s3 ⟨"AK1", "SK1", "SESS1", "bkt", "k/v.png"⟩ "img.png").2
      = [.stsTokenRequest, .s3Put "bkt" "k/v.png"] := by
  have h := upload_file_s3_descriptor ⟨"AK1", "SK1", "SESS1", "bkt", "k/v.png"⟩
    ⟨"AK2", "SK2", "SESS2", "bkt", "k/v.png"⟩ "img.png" rfl rfl
  exact ⟨h.1, h.2.1, h.2.2⟩

/-- C9: the standard multipart upload derives the real file name and the
extension-guessed MIME type from the path, but the inline-multipart quick image
job hardcodes the placeholder name "image.png" with MIME "image/png" for every
path — contradicting the claim (and marked TODO in src/src/lib.rs line 250). -/
theorem image_to_3d_placeholder_meta :
    upload_file_part_meta "photo.jpg" = .ok ("photo.jpg", "image/jpeg") ∧
    image_to_3d_part_meta "photo.jpg" = ("image.png", "image/png") ∧
    image_to_3d_part_meta "photo.jpg" ≠ ("photo.jpg", "image/jpeg") := by
  refine ⟨by rfl, rfl, by decide⟩

/-- C10: `download_model` returns an error with no filesystem effect when the
fetch fails at transport level or returns a non-2xx status; the directory
creation, file creation and write happen, in that order, only on a 2xx status. -/
theorem download_model_status_check_before_fs (model : ResultFile) (dest : String)
    (st : Nat) (body : String) (e : TripoError) (segLast : Option String)
    (hurl : urlPathSegmentsLast model.url = some segLast) :
    (isSuccessStatus st = false →
      download_model (.ok (st, body)) model dest
        = (.error (.ApiError ("Failed to download file: status " ++ toString st)), [])) ∧
    download_model (.error e) model dest = (.error e, []) ∧
    (isSuccessStatus st = true →
      download_model (.ok (st, body)) model dest
        = (.ok (dest ++ "/" ++ segLast.getD "downloaded_model.bin"),
            [.createDirAll dest,
              .createFile (dest ++ "/" ++ segLast.getD "downloaded_model.bin"),
              .writeAll (dest ++ "/" ++ segLast.getD "downloaded_model.bin") body])) := by
  refine ⟨?_, ?_, ?_⟩
  · intro h; simp [download_model, hurl, h]
  · simp [download_model, hurl]
  · intro h; simp [download_model, hurl, h]

/-- C10 witness: a 404 response leaves the filesystem untouched; a 200 response
creates the directory, creates the file and writes, in that order. -/
theorem download_model_status_check_before_fs_witness :
    download_model (.ok (404, "")) ⟨"https://e.com/m/pbr.glb"⟩ "out"
      = (.error (.ApiError "Failed to download file: status 404"), []) ∧
    download_model (.error (.RequestError "timeout")) ⟨"https://e.com/m/pbr.glb"⟩ "out"
      = (.error (.RequestError "timeout"), []) ∧
    download_model (.ok (200, "bytes")) ⟨"https://e.com/m/pbr.glb"⟩ "out"
      = (.ok "out/pbr.glb",
          [.createDirAll "out", .createFile "out/pbr.glb", .writeAll "out/pbr.glb" "bytes"]) := by
  have h := download_model_status_check_before_fs ⟨"https://e.com/m/pbr.glb"⟩ "out"
    404 "" (.RequestError "timeout") (some "pbr.glb") (by rfl)
  have h2 := download_model_status_check_before_fs ⟨"https://e.com/m/pbr.glb"⟩ "out"
    200 "bytes" (.RequestError "timeout") (some "pbr.glb") (by rfl)
  exact ⟨h.1 (by rfl), h.2.1, h2.2.2 (by rfl)⟩

end Tripo
